import Mathlib

/-!
A shallow embedding of the oxy library: the JavaScript value model the
library observes, the ts-pattern shape matchers it uses
(src/json_rpc.ts, src/result.ts, src/option.ts), the `Try` and
`OptionOf` adapters, the `Ok`/`Err` variant constructors with their
`map` methods, and the `capitalize` helper (src/index.ts).
-/

namespace Oxy

mutual
/-- Model of a JavaScript runtime value as the library observes it.
Objects are finite association lists of string keys (a JS object holds
each key once). `vpromise fulfilled payload` stands for a promise object
and is used to encode the value returned by a fetch response's `.json()`
method. Function-valued fields (such as the `map` methods of `Ok`/`Err`)
are not part of the value model: no shape pattern in the library
inspects them; `map` is modelled separately on `RResult`. -/
inductive JSVal where
  | vnull
  | vundefined
  | vbool (b : Bool)
  | vnum (n : Int)
  | vstr (s : String)
  | varr (elems : JSList)
  | vobj (fields : JSFields)
  | vpromise (fulfilled : Bool) (payload : JSVal)
deriving DecidableEq
/-- A list of JS values (a JS array). -/
inductive JSList where
  | nil
  | cons (head : JSVal) (tail : JSList)
deriving DecidableEq
/-- The fields of a JS object. -/
inductive JSFields where
  | fnil
  | fcons (key : String) (val : JSVal) (tail : JSFields)
deriving DecidableEq
end

/-- Build object fields from a Lean list of key/value pairs. -/
def fieldsOf : List (String × JSVal) → JSFields
  | [] => .fnil
  | (k, v) :: rest => .fcons k v (fieldsOf rest)

/-- Property lookup among an object's fields; a missing key reads as
`undefined`, as in JS. -/
def lookupField : JSFields → String → JSVal
  | .fnil, _ => .vundefined
  | .fcons k v rest, key => if k = key then v else lookupField rest key

/-- JS property access `v[key]`: `undefined` on anything but an object
holding the key. -/
def getField : JSVal → String → JSVal
  | .vobj fields, key => lookupField fields key
  | _, _ => .vundefined

/-- ts-pattern only matches an object pattern against a non-null value of
object type (arrays and promises are objects; functions are not modelled). -/
def isObject : JSVal → Bool
  | .vobj _ => true
  | .varr _ => true
  | .vpromise _ _ => true
  | _ => false

/-- The literal `true` (JS strict equality with `true`). -/
def isTrueV (x : JSVal) : Bool := decide (x = .vbool true)

/-- The literal `false` (JS strict equality with `false`). -/
def isFalseV (x : JSVal) : Bool := decide (x = .vbool false)

/-- `P.string`. -/
def isStringV : JSVal → Bool
  | .vstr _ => true
  | _ => false

/-- `P.number`. -/
def isNumberV : JSVal → Bool
  | .vnum _ => true
  | _ => false

/-- `P.boolean`. -/
def isBoolV : JSVal → Bool
  | .vbool _ => true
  | _ => false

/-- `P.nullish`: null or undefined. -/
def isNullishV : JSVal → Bool
  | .vnull => true
  | .vundefined => true
  | _ => false

/-- The `OK` pattern (src/result.ts lines 104-108):
`{isOk:true, isError:false, data:P.select()}`; `P.select()` matches any
value, including an absent key read as undefined. -/
def matchesOK (v : JSVal) : Bool :=
  isObject v && isTrueV (getField v "isOk") && isFalseV (getField v "isError")

/-- The `ERROR` pattern (src/result.ts lines 95-99):
`{isOk:false, isError:true, data:P.select()}`. -/
def matchesERROR (v : JSVal) : Bool :=
  isObject v && isFalseV (getField v "isOk") && isTrueV (getField v "isError")

/-- The `FetchResponsePattern` (src/result.ts lines 126-131). -/
def matchesFetch (v : JSVal) : Bool :=
  isObject v && isBoolV (getField v "ok") && isBoolV (getField v "redirected")
    && isNumberV (getField v "status") && isStringV (getField v "statusText")

/-- `id: P.union(P.string, P.number, P.nullish)` (src/json_rpc.ts). -/
def matchesRpcId (v : JSVal) : Bool :=
  isStringV v || isNumberV v || isNullishV v

/-- `jsonrpc: P.optional("2.0")`: matches undefined (in particular an
absent key) or the exact string. -/
def matchesOptionalTwoZero : JSVal → Bool
  | .vundefined => true
  | .vstr s => s == "2.0"
  | _ => false

/-- The `JsonRpcSuccessPattern` (src/json_rpc.ts lines 55-65):
`{id, jsonrpc?, result:{data:P.any}}`; `P.any` places no constraint. -/
def matchesJsonRpcSuccess (v : JSVal) : Bool :=
  isObject v && matchesRpcId (getField v "id")
    && matchesOptionalTwoZero (getField v "jsonrpc")
    && isObject (getField v "result")

/-- The `JsonRpcErrorPattern` (src/json_rpc.ts lines 70-90):
`{id, jsonrpc?, error:{message:P.string, data:{req_uuid:P.string, detail:P.any}}}`. -/
def matchesJsonRpcError (v : JSVal) : Bool :=
  isObject v && matchesRpcId (getField v "id")
    && matchesOptionalTwoZero (getField v "jsonrpc")
    && isObject (getField v "error")
    && isStringV (getField (getField v "error") "message")
    && isObject (getField (getField v "error") "data")
    && isStringV (getField (getField (getField v "error") "data") "req_uuid")

/-- The `NOTHING` constant of src/option.ts as a pattern:
`{isSome:false, isNone:true}`. -/
def matchesNOTHING (v : JSVal) : Bool :=
  isObject v && isFalseV (getField v "isSome") && isTrueV (getField v "isNone")

/-- The `SOMETHING` pattern (src/option.ts lines 26-34):
`{isSome:true, isNone:false, data:P.select()}`. -/
def matchesSOMETHING (v : JSVal) : Bool :=
  isObject v && isTrueV (getField v "isSome") && isFalseV (getField v "isNone")

/-- `Ok(thing)` (src/result.ts lines 54-62), as the object shape it
produces. -/
def Ok (thing : JSVal) : JSVal :=
  .vobj (fieldsOf [("isOk", .vbool true), ("data", thing), ("isError", .vbool false)])

/-- `Err(errorData)` (src/result.ts lines 70-78); `now` is the clock
reading stored by `new Date()`. -/
def Err (errorData : JSVal) (now : Nat) : JSVal :=
  .vobj (fieldsOf [("isOk", .vbool false), ("data", errorData),
    ("isError", .vbool true), ("timestamp", .vnum now)])

/-- The `NOTHING` singleton value (src/option.ts line 35). -/
def NOTHING : JSVal :=
  .vobj (fieldsOf [("isSome", .vbool false), ("isNone", .vbool true)])

/-- `some(data)` (src/option.ts lines 17-19), as the object shape it
produces (named `mkSome` here because `some` would shadow `Option.some`). -/
def mkSome (data : JSVal) : JSVal :=
  .vobj (fieldsOf [("isSome", .vbool true), ("data", data), ("isNone", .vbool false)])

/-- The observable behaviour of one invocation of the wrapped computation.
`ret` is a synchronous return of a plain (non-thenable) value, `thr` a
synchronous throw, `resolved`/`rejected` a returned promise and how it
settles. The computation is deterministic: a re-invocation by the
synchronous tier yields the same outcome. -/
inductive Outcome where
  | ret (v : JSVal)
  | thr (e : JSVal)
  | resolved (v : JSVal)
  | rejected (e : JSVal)
deriving DecidableEq

/-- The outcome of invoking the caller's `sadPath` on a value: it returns
a value or throws. -/
inductive SPRes where
  | ret (v : JSVal)
  | thr (e : JSVal)
deriving DecidableEq

/-- A `sadPath` argument is a deterministic function of the error value. -/
abbrev SadPath := JSVal → SPRes

/-- How the promise returned by `Try`/`OptionOf` behaves: it fulfills,
rejects, or never settles. -/
inductive Settle where
  | resolves (v : JSVal)
  | rejects (e : JSVal)
  | unsettled
deriving DecidableEq

/-- Whether a settlement is a fulfillment. -/
def Settle.isResolved : Settle → Bool
  | .resolves _ => true
  | _ => false

/-- The result of awaiting `res.json()` (src/result.ts line 163): a body,
or a thrown/rejected error. -/
inductive JsonRes where
  | ok (body : JSVal)
  | thrown (e : JSVal)
deriving DecidableEq

/-- Awaiting `res.json()` on a fetch-shaped value. The response object's
`"json"` field encodes the promise returned by the call (a function
returning a plain value b is encoded as a fulfilled promise, since
`await` unwraps both the same way); any non-promise field value — in
particular an absent one, read as undefined — models `res.json` not
being callable, whose invocation throws a TypeError. -/
def jsonExtract (v : JSVal) : JsonRes :=
  match getField v "json" with
  | .vpromise true b => .ok b
  | .vpromise false e => .thrown e
  | _ => .thrown (.vstr "TypeError: res.json is not a function")

/-- Classification of the extracted body of a fetch-shaped response
(src/result.ts lines 164-167): JSON-RPC success before JSON-RPC error
before the default `Ok` wrap. A `sadPath` that throws does so inside the
async handler, whose promise then rejects and is adopted by `resolve`. -/
def classifyFetchBody (sadPath : Option SadPath) (now : Nat) (json : JSVal) : Settle :=
  if matchesJsonRpcSuccess json then .resolves (Ok json)
  else if matchesJsonRpcError json then
    match sadPath with
    | some sp =>
      match sp json with
      | .ret r => .resolves r
      | .thr x => .rejects x
    | none => .resolves (Err json now)
  else .resolves (Ok json)

/-- The `.then` continuation of tier A (src/result.ts lines 158-172):
fetch shape (with body extraction) before the `OK` pattern before the
default `Ok` wrap; a failed body extraction rejects the async handler's
promise, which `resolve` adopts. -/
def tierASuccess (sadPath : Option SadPath) (now : Nat) (valueWeWant : JSVal) : Settle :=
  if matchesFetch valueWeWant then
    match jsonExtract valueWeWant with
    | .ok json => classifyFetchBody sadPath now json
    | .thrown e => .rejects e
  else if matchesOK valueWeWant then .resolves valueWeWant
  else .resolves (Ok valueWeWant)

/-- The `.catch` continuation of tier A (src/result.ts lines 173-180):
JSON-RPC error envelope before the `ERROR` pattern before
`sadPath`/`Err`. A `sadPath` that throws does so inside the catch
callback: `resolve` is never reached and the promise returned by `Try`
never settles. -/
def tierAFailure (sadPath : Option SadPath) (now : Nat) (error : JSVal) : Settle :=
  if matchesJsonRpcError error then .resolves (Err error now)
  else if matchesERROR error then .resolves error
  else
    match sadPath with
    | some sp =>
      match sp error with
      | .ret _r => .resolves _r
      | .thr _ => .unsettled
    | none => .resolves (Err error now)

/-- Tier B on a returned value (src/result.ts lines 185-190): `OK` and
`ERROR` pass through, anything else is wrapped in `Ok`. -/
def tierBReturn (valueWeWant : JSVal) : Settle :=
  if matchesOK valueWeWant then .resolves valueWeWant
  else if matchesERROR valueWeWant then .resolves valueWeWant
  else .resolves (Ok valueWeWant)

/-- Tier B on a thrown error (src/result.ts lines 191-197): `ERROR`
passes through, otherwise `sadPath` when supplied, else `Err`. A
`sadPath` that throws here throws out of the promise executor, which
rejects the promise. -/
def tierBThrow (sadPath : Option SadPath) (now : Nat) (error : JSVal) : Settle :=
  if matchesERROR error then .resolves error
  else
    match sadPath with
    | some sp =>
      match sp error with
      | .ret r => .resolves r
      | .thr x => .rejects x
    | none => .resolves (Err error now)

/-- `Try` (src/result.ts lines 141-210), instrumented with the number of
invocations of `happyPath`. Line 157 invokes `happyPath` once and chains
`.then`/`.catch` onto its result; when that call throws, or returns a
non-thenable (so that accessing-and-calling `.then` throws a TypeError),
control falls to the catch at line 181, whose tier B re-invokes
`happyPath` at line 184 — a second invocation. `now` is the clock used
for `Err` timestamps. -/
def TryRun (happyPath : Outcome) (sadPath : Option SadPath) (now : Nat) : Settle × Nat :=
  match happyPath with
  | .resolved v => (tierASuccess sadPath now v, 1)
  | .rejected e => (tierAFailure sadPath now e, 1)
  | .ret v => (tierBReturn v, 2)
  | .thr e => (tierBThrow sadPath now e, 2)

/-- The settlement of the promise returned by `Try`. -/
def Try (happyPath : Outcome) (sadPath : Option SadPath) (now : Nat) : Settle :=
  (TryRun happyPath sadPath now).fst

/-- `data === ""` (strict, so only the empty string matches). -/
def isEmptyStringV : JSVal → Bool
  | .vstr s => s == ""
  | _ => false

/-- `Array.isArray(data) && !data.length`. -/
def isEmptyArrayV : JSVal → Bool
  | .varr .nil => true
  | _ => false

/-- `optionOfThing` (src/option.ts lines 73-109). -/
def optionOfThing (data : JSVal) : JSVal :=
  let thingIsNullish := isNullishV data
  let thingIsEmptyArray := isEmptyArrayV data
  let thingIsEmptyString := isEmptyStringV data
  let thingIsNothing := matchesNOTHING data
  if thingIsNullish || thingIsEmptyArray || thingIsNothing || thingIsEmptyString then
    NOTHING
  else if matchesSOMETHING data then data
  else mkSome data

/-- `OptionOf` (src/option.ts lines 44-61), instrumented with the number
of invocations of `someFunction`. Line 49 invokes it once; when the
result is not a promise (`.then` throws a TypeError) or the call itself
throws, the catch at line 52 re-invokes it at line 54. A rejected
promise resolves to `NOTHING` via the `.catch` at line 51. -/
def OptionOfRun (someFunction : Outcome) : Settle × Nat :=
  match someFunction with
  | .resolved v => (.resolves (optionOfThing v), 1)
  | .rejected _ => (.resolves NOTHING, 1)
  | .ret v => (.resolves (optionOfThing v), 2)
  | .thr _ => (.resolves NOTHING, 2)

/-- The settlement of the promise returned by `OptionOf`. -/
def OptionOf (someFunction : Outcome) : Settle :=
  (OptionOfRun someFunction).fst

/-- The Result variants with their payloads, typed, for the `map` laws:
`Ok{data}` and `Err{data, timestamp}` (src/result.ts lines 17-46). -/
inductive RResult (α ε : Type) where
  | Ok (data : α)
  | Err (data : ε) (timestamp : Nat)
deriving DecidableEq

/-- `map` (src/result.ts lines 58-61 and 75-77): on `Ok`, apply `fn` to
`data` and wrap anew; on `Err`, return `this` unchanged. -/
def RResult.map {α ε β : Type} : RResult α ε → (α → β) → RResult β ε
  | .Ok d, fn => .Ok (fn d)
  | .Err d t, _ => .Err d t

/-- `map` instrumented with the number of invocations of `fn`: the `Ok`
branch calls `fn(this.data)` once, the `Err` branch never calls it. -/
def RResult.mapCount {α ε β : Type} : RResult α ε → (α → β) → RResult β ε × Nat
  | .Ok d, fn => (.Ok (fn d), 1)
  | .Err d t, _ => (.Err d t, 0)

/-- `String.prototype.replace` with a string pattern: replace only the
first occurrence of `pat` by `repl`; with no occurrence return the
string unchanged; an empty pattern occurs at position 0. JS strings are
modelled as lists of characters. -/
def jsReplaceFirst (pat repl : List Char) : List Char → List Char
  | [] => if pat.isPrefixOf ([] : List Char) then repl else []
  | c :: rest =>
    if pat.isPrefixOf (c :: rest) then repl ++ List.drop pat.length (c :: rest)
    else c :: jsReplaceFirst pat repl rest

/-- `String.prototype.toUpperCase`, parametric in the per-character case
map (which, in Unicode, may expand one character to several). -/
def jsToUpperCase (upper : Char → List Char) (s : List Char) : List Char :=
  (s.map upper).flatten

/-- `capitalize` (src/index.ts lines 7-10): uppercase `s.slice(0, 1)` and
substitute it for the first occurrence of `s.slice(0, 1)` in `s`. -/
def capitalize (upper : Char → List Char) (s : List Char) : List Char :=
  let first_letter := jsToUpperCase upper (List.take 1 s)
  jsReplaceFirst (List.take 1 s) first_letter s

/-- A concrete JSON-RPC error envelope, used as input below. -/
def rpcErrV : JSVal :=
  .vobj (fieldsOf
    [("id", .vstr "1"), ("jsonrpc", .vstr "2.0"),
     ("error", .vobj (fieldsOf
        [("message", .vstr "x"),
         ("data", .vobj (fieldsOf
            [("req_uuid", .vstr "u1"), ("detail", .vobj .fnil)]))]))])

/-- A concrete JSON-RPC success envelope, used as input below. -/
def rpcSuccessV : JSVal :=
  .vobj (fieldsOf
    [("id", .vnum 1), ("jsonrpc", .vstr "2.0"),
     ("result", .vobj (fieldsOf [("data", .vnum 42)]))])

/-- A concrete fetch-shaped response whose body extraction yields
`rpcSuccessV`, used as input below. -/
def fetchRespV : JSVal :=
  .vobj (fieldsOf
    [("ok", .vbool true), ("redirected", .vbool false),
     ("status", .vnum 200), ("statusText", .vstr "OK"),
     ("json", .vpromise true rpcSuccessV)])

/-- A sadPath that returns the string "handled" on every input. -/
def spHandled : SadPath := fun _ => .ret (.vstr "handled")

/-- A sadPath that throws on every input. -/
def spThrows : SadPath := fun _ => .thr (.vstr "sadboom")

theorem isTrueV_eq_false_of_isFalseV {x : JSVal} (h : isFalseV x = true) :
    isTrueV x = false := by
  have hx : x = .vbool false := of_decide_eq_true h
  subst hx
  rfl

theorem matchesOK_eq_false_of_matchesERROR {v : JSVal} (h : matchesERROR v = true) :
    matchesOK v = false := by
  simp only [matchesERROR, Bool.and_eq_true] at h
  have h2 : isTrueV (getField v "isOk") = false := isTrueV_eq_false_of_isFalseV h.1.2
  simp [matchesOK, h2]

theorem tierBReturn_resolves (v : JSVal) : ∃ w, tierBReturn v = .resolves w := by
  unfold tierBReturn
  split
  · exact ⟨v, rfl⟩
  · split
    · exact ⟨v, rfl⟩
    · exact ⟨Ok v, rfl⟩

theorem tierBThrow_resolves (sp : Option SadPath) (now : Nat) (e : JSVal)
    (hsp : ∀ f x, sp = some f → ∃ r, f x = SPRes.ret r) :
    ∃ w, tierBThrow sp now e = .resolves w := by
  unfold tierBThrow
  split
  · exact ⟨e, rfl⟩
  · cases sp with
    | none => exact ⟨Err e now, rfl⟩
    | some f =>
      obtain ⟨r, hr⟩ := hsp f e rfl
      exact ⟨r, by simp [hr]⟩

theorem tierAFailure_resolves (sp : Option SadPath) (now : Nat) (e : JSVal)
    (hsp : ∀ f x, sp = some f → ∃ r, f x = SPRes.ret r) :
    ∃ w, tierAFailure sp now e = .resolves w := by
  unfold tierAFailure
  split
  · exact ⟨Err e now, rfl⟩
  · split
    · exact ⟨e, rfl⟩
    · cases sp with
      | none => exact ⟨Err e now, rfl⟩
      | some f =>
        obtain ⟨r, hr⟩ := hsp f e rfl
        exact ⟨r, by simp [hr]⟩

theorem classifyFetchBody_resolves (sp : Option SadPath) (now : Nat) (b : JSVal)
    (hsp : ∀ f x, sp = some f → ∃ r, f x = SPRes.ret r) :
    ∃ w, classifyFetchBody sp now b = .resolves w := by
  unfold classifyFetchBody
  split
  · exact ⟨Ok b, rfl⟩
  · split
    · cases sp with
      | none => exact ⟨Err b now, rfl⟩
      | some f =>
        obtain ⟨r, hr⟩ := hsp f b rfl
        exact ⟨r, by simp [hr]⟩
    · exact ⟨Ok b, rfl⟩

theorem tierASuccess_resolves (sp : Option SadPath) (now : Nat) (v : JSVal)
    (hsp : ∀ f x, sp = some f → ∃ r, f x = SPRes.ret r)
    (hfetch : matchesFetch v = true → ∃ b, jsonExtract v = .ok b) :
    ∃ w, tierASuccess sp now v = .resolves w := by
  by_cases hF : matchesFetch v = true
  · obtain ⟨b, hb⟩ := hfetch hF
    have hred : tierASuccess sp now v = classifyFetchBody sp now b := by
      simp [tierASuccess, hF, hb]
    rw [hred]
    exact classifyFetchBody_resolves sp now b hsp
  · have hF2 : matchesFetch v = false := by simpa using hF
    by_cases hOk : matchesOK v = true
    · exact ⟨v, by simp [tierASuccess, hF2, hOk]⟩
    · have hOk2 : matchesOK v = false := by simpa using hOk
      exact ⟨Ok v, by simp [tierASuccess, hF2, hOk2]⟩

/-- C1 counterexample: the Err-tagged value `Err("boom")`, resolved by an
asynchronous computation, is not passed through unchanged: `Try`
re-wraps it as `Ok(Err("boom"))` (the tier A success match has no ERROR
arm). The last two conjuncts exhibit that the re-wrapped value differs
from the original at the `isOk` tag. -/
theorem try_async_errTagged_rewrap_ce :
    Try (.resolved (Err (.vstr "boom") 0)) none 7
      = .resolves (Ok (Err (.vstr "boom") 0))
    ∧ isTrueV (getField (Ok (Err (.vstr "boom") 0)) "isOk") = true
    ∧ isTrueV (getField (Err (.vstr "boom") 0) "isOk") = false := by decide

/-- C1 (amended): a value matching the Ok pattern or the Err pattern that
is returned by a synchronous computation passes through `Try` unchanged;
resolved by an asynchronous computation, an Ok-matching value that is
not fetch-shaped passes through unchanged, while an Err-matching
non-fetch-shaped value is re-wrapped as `Ok` of itself. -/
theorem try_tagged_passthrough (v : JSVal) (sp : Option SadPath) (now : Nat)
    (hTag : matchesOK v = true ∨ matchesERROR v = true) :
    Try (.ret v) sp now = .resolves v
    ∧ (matchesOK v = true → matchesFetch v = false →
        Try (.resolved v) sp now = .resolves v)
    ∧ (matchesERROR v = true → matchesFetch v = false →
        Try (.resolved v) sp now = .resolves (Ok v)) := by
  refine ⟨?_, ?_, ?_⟩
  · cases hTag with
    | inl h => simp [Try, TryRun, tierBReturn, h]
    | inr h =>
      by_cases hOk : matchesOK v = true
      · simp [Try, TryRun, tierBReturn, hOk]
      · simp [Try, TryRun, tierBReturn, hOk, h]
  · intro hOk hF
    simp [Try, TryRun, tierASuccess, hF, hOk]
  · intro hErr hF
    have hOk := matchesOK_eq_false_of_matchesERROR hErr
    simp [Try, TryRun, tierASuccess, hF, hOk]

/-- Witness for the pass-through theorem at the concrete Ok-tagged value
`Ok(1)` returned synchronously. -/
theorem try_tagged_passthrough_witness :
    Try (.ret (Ok (.vnum 1))) none 0 = .resolves (Ok (.vnum 1)) :=
  (try_tagged_passthrough (Ok (.vnum 1)) none 0 (Or.inl (by decide))).1

/-- C2 counterexample: for an asynchronously rejected JSON-RPC error
envelope, `Try` resolves to `Err(envelope)` even though a sadPath was
supplied and returns the string "handled": the JsonRpcErrorPattern arm
of the catch path precedes the sadPath arm. The last two conjuncts
exhibit that the resolved value is not the sadPath's return value. -/
theorem try_rejected_rpcError_ignores_sadPath_ce :
    Try (.rejected rpcErrV) (some spHandled) 5 = .resolves (Err rpcErrV 5)
    ∧ spHandled rpcErrV = .ret (.vstr "handled")
    ∧ isStringV (.vstr "handled") = true
    ∧ isStringV (Err rpcErrV 5) = false := by decide

/-- C2 (amended): for a thrown/rejected value matching the JSON-RPC error
envelope (and not matching the ERROR pattern), with no sadPath both
tiers resolve to `Err(e)`; with a sadPath, a synchronous throw resolves
to sadPath(e)'s return value, while an asynchronous rejection still
resolves to `Err(e)` with the sadPath ignored. -/
theorem try_jsonrpc_error_classified (e r : JSVal) (sp : SadPath) (now : Nat)
    (hRpc : matchesJsonRpcError e = true) (hNotErr : matchesERROR e = false)
    (hsp : sp e = .ret r) :
    Try (.thr e) none now = .resolves (Err e now)
    ∧ Try (.rejected e) none now = .resolves (Err e now)
    ∧ Try (.thr e) (some sp) now = .resolves r
    ∧ Try (.rejected e) (some sp) now = .resolves (Err e now) := by
  refine ⟨?_, ?_, ?_, ?_⟩ <;>
    simp [Try, TryRun, tierAFailure, tierBThrow, hRpc, hNotErr, hsp]

/-- Witness for the JSON-RPC error classification at the concrete
envelope `rpcErrV` with sadPath `spHandled`. -/
theorem try_jsonrpc_error_classified_witness :
    Try (.rejected rpcErrV) (some spHandled) 5 = .resolves (Err rpcErrV 5) :=
  (try_jsonrpc_error_classified rpcErrV (.vstr "handled") spHandled 5
    (by decide) (by decide) rfl).2.2.2

/-- C3 counterexample: with a sadPath that itself throws, a synchronous
failure makes the promise returned by `Try` reject (the throw escapes
the promise executor), and an asynchronous rejection leaves the promise
unsettled forever (the throw escapes the catch callback before resolve
is reached) — so `Try` does not always resolve. -/
theorem try_throwing_sadPath_not_resolved_ce :
    Try (.thr (.vstr "boom")) (some spThrows) 0 = .rejects (.vstr "sadboom")
    ∧ (Try (.thr (.vstr "boom")) (some spThrows) 0).isResolved = false
    ∧ Try (.rejected (.vstr "boom")) (some spThrows) 0 = .unsettled
    ∧ (Try (.rejected (.vstr "boom")) (some spThrows) 0).isResolved = false := by
  decide

/-- C3 (amended): `Try` never throws synchronously, and its returned
promise always settles by resolving, for every happyPath and sadPath —
provided the sadPath (when supplied) never throws and the body
extraction of any fetch-shaped asynchronously resolved value succeeds. -/
theorem try_total_resolves (hp : Outcome) (sp : Option SadPath) (now : Nat)
    (hsp : ∀ f x, sp = some f → ∃ r, f x = SPRes.ret r)
    (hfetch : ∀ v, hp = .resolved v → matchesFetch v = true →
      ∃ b, jsonExtract v = .ok b) :
    ∃ w, Try hp sp now = .resolves w := by
  cases hp with
  | ret v => exact tierBReturn_resolves v
  | thr e => exact tierBThrow_resolves sp now e hsp
  | resolved v => exact tierASuccess_resolves sp now v hsp (hfetch v rfl)
  | rejected e => exact tierAFailure_resolves sp now e hsp

/-- Witness for totality at a synchronously throwing happyPath with the
non-throwing sadPath `spHandled`. -/
theorem try_total_resolves_witness :
    ∃ w, Try (.thr (.vstr "boom")) (some spHandled) 0 = .resolves w :=
  try_total_resolves (.thr (.vstr "boom")) (some spHandled) 0
    (fun f x h => by
      cases h
      exact ⟨.vstr "handled", rfl⟩)
    (fun v h => nomatch h)

/-- C4 counterexample: a happyPath that synchronously returns the plain
value 1 is invoked twice by `Try` (the tier A probe at line 157 and the
tier B call at line 184), and likewise `OptionOf` invokes a synchronous
fn twice — not exactly once as claimed. -/
theorem try_sync_double_invocation_ce :
    (TryRun (.ret (.vnum 1)) none 0).snd = 2
    ∧ (OptionOfRun (.ret (.vnum 1))).snd = 2 := by decide

/-- C4 (amended): the wrapped computation is invoked exactly once when it
returns a promise (fulfilling or rejecting) and exactly twice when it is
synchronous (returning a plain value or throwing): once by the
asynchronous-tier probe and once more by the synchronous tier — in both
`Try` and `OptionOf`. -/
theorem invocation_counts (v e : JSVal) (sp : Option SadPath) (now : Nat) :
    (TryRun (.resolved v) sp now).snd = 1
    ∧ (TryRun (.rejected e) sp now).snd = 1
    ∧ (TryRun (.ret v) sp now).snd = 2
    ∧ (TryRun (.thr e) sp now).snd = 2
    ∧ (OptionOfRun (.resolved v)).snd = 1
    ∧ (OptionOfRun (.rejected e)).snd = 1
    ∧ (OptionOfRun (.ret v)).snd = 2
    ∧ (OptionOfRun (.thr e)).snd = 2 :=
  ⟨rfl, rfl, rfl, rfl, rfl, rfl, rfl, rfl⟩

/-- C5: `OptionOf` resolves to the NOTHING singleton for computations
producing null, undefined, an empty array, or the empty string (both
synchronously and asynchronously), and to a present option wrapping the
value for 0 and for false. -/
theorem optionOf_emptiness :
    OptionOf (.ret .vnull) = .resolves NOTHING
    ∧ OptionOf (.ret .vundefined) = .resolves NOTHING
    ∧ OptionOf (.ret (.varr .nil)) = .resolves NOTHING
    ∧ OptionOf (.ret (.vstr "")) = .resolves NOTHING
    ∧ OptionOf (.resolved .vnull) = .resolves NOTHING
    ∧ OptionOf (.resolved .vundefined) = .resolves NOTHING
    ∧ OptionOf (.resolved (.varr .nil)) = .resolves NOTHING
    ∧ OptionOf (.resolved (.vstr "")) = .resolves NOTHING
    ∧ OptionOf (.ret (.vnum 0)) = .resolves (mkSome (.vnum 0))
    ∧ OptionOf (.ret (.vbool false)) = .resolves (mkSome (.vbool false))
    ∧ OptionOf (.resolved (.vnum 0)) = .resolves (mkSome (.vnum 0))
    ∧ OptionOf (.resolved (.vbool false)) = .resolves (mkSome (.vbool false)) := by
  decide

/-- C6: for any Err-tagged value `Err(d)` with timestamp `t` and any
function `f`, `map f` returns the very same Err (same tags, same data,
same timestamp) and `f` is invoked zero times. -/
theorem err_map_absorption {ε α β : Type} (d : ε) (t : Nat) (f : α → β) :
    (RResult.Err d t : RResult α ε).map f = RResult.Err d t
    ∧ (RResult.Err d t : RResult α ε).mapCount f = (RResult.Err d t, 0) :=
  ⟨rfl, rfl⟩

/-- C7: for any value `x` and function `f`, `Ok(x).map(f)` equals
`Ok(f(x))`, with `f` invoked exactly once on `x`. -/
theorem ok_map_transform {α ε β : Type} (x : α) (f : α → β) :
    (RResult.Ok x : RResult α ε).map f = RResult.Ok (f x)
    ∧ (RResult.Ok x : RResult α ε).mapCount f = (RResult.Ok (f x), 1) :=
  ⟨rfl, rfl⟩

/-- C8: for every asynchronously resolved value matching the fetch-like
response shape whose extracted body matches the JSON-RPC success
envelope, `Try` resolves to `Ok` of the entire extracted body envelope. -/
theorem try_fetch_rpcSuccess (v body : JSVal) (sp : Option SadPath) (now : Nat)
    (hF : matchesFetch v = true) (hJ : jsonExtract v = .ok body)
    (hS : matchesJsonRpcSuccess body = true) :
    Try (.resolved v) sp now = .resolves (Ok body) := by
  show tierASuccess sp now v = .resolves (Ok body)
  simp [tierASuccess, hF, hJ, classifyFetchBody, hS]

/-- Witness for the fetch-success classification at a concrete response
whose body is the envelope `{jsonrpc:"2.0", id:1, result:{data:42}}`. -/
theorem try_fetch_rpcSuccess_witness :
    Try (.resolved fetchRespV) none 0 = .resolves (Ok rpcSuccessV) :=
  try_fetch_rpcSuccess fetchRespV rpcSuccessV none 0
    (by decide) (by decide) (by decide)

/-- C9: `OptionOf` resolves to NOTHING when the wrapped fn throws or its
returned promise rejects, and for every computation it resolves — it
never propagates an exception or rejection. -/
theorem optionOf_failure_nothing (e : JSVal) (oc : Outcome) :
    OptionOf (.thr e) = .resolves NOTHING
    ∧ OptionOf (.rejected e) = .resolves NOTHING
    ∧ ∃ w, OptionOf oc = .resolves w := by
  refine ⟨rfl, rfl, ?_⟩
  cases oc with
  | ret v => exact ⟨optionOfThing v, rfl⟩
  | thr e2 => exact ⟨NOTHING, rfl⟩
  | resolved v => exact ⟨optionOfThing v, rfl⟩
  | rejected e2 => exact ⟨NOTHING, rfl⟩

/-- C10: for every per-character uppercase map, `capitalize` of the empty
string is the empty string; `capitalize` of a non-empty string replaces
its first character by that character's uppercase form and keeps every
later character; when the first character's uppercase form is itself,
the string is returned unchanged. -/
theorem capitalize_spec (upper : Char → List Char) :
    capitalize upper [] = []
    ∧ (∀ c rest, capitalize upper (c :: rest) = upper c ++ rest)
    ∧ (∀ c rest, upper c = [c] → capitalize upper (c :: rest) = c :: rest) := by
  refine ⟨rfl, ?_, ?_⟩
  · intro c rest
    simp [capitalize, jsToUpperCase, jsReplaceFirst, List.isPrefixOf]
  · intro c rest h
    simp [capitalize, jsToUpperCase, jsReplaceFirst, List.isPrefixOf, h]

/-- Witness for the capitalize specification: with the identity case map
the string "xy" is unchanged. -/
theorem capitalize_spec_witness :
    capitalize (fun c => [c]) [ 'x', 'y' ] = [ 'x', 'y' ] :=
  (capitalize_spec (fun c => [c])).2.2 'x' [ 'y' ] rfl

end Oxy
